import Mathlib

set_option maxRecDepth 20000

/-! Verification development for the skills-guard security scanner
(`tools/skills_guard.py`): a shallow embedding of its data model, install
policy, verdict aggregation, file/structure scanning pipeline, classifier
merge and content hashing, together with proofs and refutations of the
specified properties.

Machine integers do not occur (Python ints are unbounded); regular-expression
searching (`re.search` with `re.IGNORECASE`) is the one external primitive the
embedding abstracts: the scanning pipeline is parametrised over a function
`reSearch : String → String → Bool` taking the pattern source text and one
line.  Every theorem about the pipeline's control flow holds for all such
functions; concrete counterexamples instantiate it with an explicit function
that agrees with Python's `re.search` on every (pattern, line) pair the
example evaluates. -/

/-- One detected issue, mirroring the Python `Finding` dataclass.  The Python
field `match` is called `matchText` here because `match` is a Lean keyword. -/
structure Finding where
  pattern_id : String
  severity : String
  category : String
  file : String
  line : Nat
  matchText : String
  description : String
deriving DecidableEq, Repr

/-- Scan outcome, mirroring the Python `ScanResult` dataclass.  `scanned_at`
(a wall-clock timestamp in Python) is carried as an opaque string. -/
structure ScanResult where
  skill_name : String
  source : String
  trust_level : String
  verdict : String
  findings : List Finding
  scanned_at : String
  summary : String
deriving DecidableEq, Repr

def TRUSTED_REPOS : List String := ["openai/skills", "anthropics/skills"]

/-- `INSTALL_POLICY`: each row is the (safe, caution, dangerous) decision
triple for one trust level. -/
def INSTALL_POLICY : List (String × (String × String × String)) :=
  [("builtin", ("allow", "allow", "allow")),
   ("trusted", ("allow", "allow", "block")),
   ("community", ("allow", "block", "block")),
   ("agent-created", ("allow", "block", "block"))]

/-- Python `INSTALL_POLICY.get(trust, INSTALL_POLICY["community"])`. -/
def installPolicyGet (trust : String) : String × String × String :=
  match INSTALL_POLICY.lookup trust with
  | some row => row
  | none => (INSTALL_POLICY.lookup "community").getD ("allow", "block", "block")

def VERDICT_INDEX : List (String × Nat) :=
  [("safe", 0), ("caution", 1), ("dangerous", 2)]

/-- Python `VERDICT_INDEX.get(verdict, 2)`. -/
def verdictIndexGet (verdict : String) : Nat :=
  (VERDICT_INDEX.lookup verdict).getD 2

/-- Python tuple indexing `policy[vi]` on the three-column policy rows
(`vi` is always 0, 1 or 2). -/
def rowGet (row : String × String × String) : Nat → String
  | 0 => row.1
  | 1 => row.2.1
  | _ => row.2.2

/-- Python `should_allow_install(result, force=False)`. -/
def should_allow_install (result : ScanResult) (force : Bool) : Bool × String :=
  if result.verdict = "dangerous" ∧ force = false then
    (false, "Scan verdict is DANGEROUS (" ++ toString result.findings.length ++
      " findings). Blocked.")
  else
    let policy := installPolicyGet result.trust_level
    let vi := verdictIndexGet result.verdict
    let decision := rowGet policy vi
    if decision = "allow" then
      (true, "Allowed (" ++ result.trust_level ++ " source, " ++ result.verdict ++ " verdict)")
    else if force then
      (true, "Force-installed despite " ++ result.verdict ++ " verdict (" ++
        toString result.findings.length ++ " findings)")
    else
      (false, "Blocked (" ++ result.trust_level ++ " source + " ++ result.verdict ++
        " verdict, " ++ toString result.findings.length ++ " findings). Use --force to override.")

/-- Python `_determine_verdict(findings)`. -/
def determine_verdict (findings : List Finding) : String :=
  if findings = [] then "safe"
  else
    let has_critical := findings.any (fun f => f.severity == "critical")
    let has_high := findings.any (fun f => f.severity == "high")
    if has_critical then "dangerous"
    else if has_high then "caution"
    else "caution"

/-- Insertion into a list sorted by `le`. -/
def insertLe {α : Type} (le : α → α → Bool) (a : α) : List α → List α
  | [] => [a]
  | b :: bs => if le a b then a :: b :: bs else b :: insertLe le a bs

/-- Insertion sort by `le`; models Python `sorted` (our keys are distinct, so
any correct sort produces Python's order). -/
def sortLe {α : Type} (le : α → α → Bool) : List α → List α
  | [] => []
  | a :: as => insertLe le a (sortLe le as)

/-- Code-point lexicographic order on character lists (Python string `<`). -/
def charListLt : List Char → List Char → Bool
  | [], [] => false
  | [], _ :: _ => true
  | _ :: _, [] => false
  | a :: as, b :: bs => if a < b then true else if b < a then false else charListLt as bs

/-- Python string comparison `a < b` (code-point lexicographic).  Defined over
character lists so that the kernel can evaluate it (Lean's built-in `String`
order is byte-iterator-based and does not reduce). -/
def strLtB (a b : String) : Bool := charListLt a.toList b.toList

/-- Python `s.startswith(p)` (over code points). -/
def pyStartswith (s p : String) : Bool := p.toList.isPrefixOf s.toList

/-- Python `str.lower()` restricted to ASCII (every string it is applied to in
the source — file extensions — is ASCII). -/
def pyLower (s : String) : String := String.mk (s.toList.map Char.toLower)

/-- Python `sep.join(strs)`. -/
def joinSep (sep : String) : List String → String
  | [] => ""
  | [s] => s
  | s :: rest => s ++ sep ++ joinSep sep rest

/-- Python `content.split('\n')` over characters (`"".split('\n') == ['']`). -/
def splitLineChars : List Char → List (List Char)
  | [] => [[]]
  | c :: rest =>
      match splitLineChars rest with
      | [] => [[]]
      | l :: ls => if c = '\n' then [] :: l :: ls else (c :: l) :: ls

/-- Python `content.split('\n')` on strings. -/
def pySplitLines (content : String) : List String :=
  (splitLineChars content.toList).map String.mk

/-- Python `str.strip()` (both ends; ASCII whitespace, which covers every
input arising here). -/
def pyStrip (s : String) : String :=
  String.mk (((s.toList.dropWhile Char.isWhitespace).reverse.dropWhile
    Char.isWhitespace).reverse)

/-- Python `len(s)` (code points). -/
def pyLen (s : String) : Nat := s.toList.length

/-- Python `s[:n]` (code points). -/
def pyTakeChars (n : Nat) (s : String) : String := String.mk (s.toList.take n)

/-- Total order on strings, matching Python string comparison by code point. -/
def strLe (a b : String) : Bool := !(strLtB b a)

/-- Python `", ".join(sorted(set(f.category for f in findings)))`. -/
def sortedCategories (findings : List Finding) : String :=
  joinSep ", " (sortLe strLe ((findings.map (fun f => f.category)).eraseDups))

/-- Python `_build_summary(name, source, trust, verdict, findings)`
(`source` and `trust` are accepted and unused, as in the source). -/
def build_summary (name _source _trust verdict : String) (findings : List Finding) : String :=
  if findings = [] then name ++ ": clean scan, no threats detected"
  else
    name ++ ": " ++ verdict ++ " — " ++ toString findings.length ++ " finding(s) in " ++
      sortedCategories findings

/-- Python `_resolve_trust_level(source)`.  The Python loop ranges over a set;
membership of the tested property is order-independent, so a list `any` is a
faithful model. -/
def resolve_trust_level (source : String) : String :=
  if TRUSTED_REPOS.any (fun trusted => pyStartswith source trusted || source == trusted)
  then "trusted" else "community"

/-- A sample critical-severity finding used in concrete instantiations. -/
def critF : Finding := ⟨"p", "critical", "c", "f", 1, "m", "d"⟩

/-- A sample low-severity finding used in concrete instantiations. -/
def lowF : Finding := ⟨"p", "low", "c", "f", 1, "m", "d"⟩

/-- One threat-signature row of the corpus:
(regex source, pattern_id, severity, category, description). -/
structure ThreatPattern where
  regex : String
  pid : String
  severity : String
  category : String
  description : String
deriving DecidableEq, Repr

/-- `THREAT_PATTERNS`, part 1 (the table is split only to keep Lean list-literal elaboration tractable). -/
def THREAT_PATTERNS_1 : List ThreatPattern := [
  ⟨"curl\\s+[^\\n]*\\$\\\x7b?\\w*(KEY|TOKEN|SECRET|PASSWORD|CREDENTIAL|API)",
   "env_exfil_curl", "critical", "exfiltration",
   "curl command interpolating secret environment variable"⟩,
  ⟨"wget\\s+[^\\n]*\\$\\\x7b?\\w*(KEY|TOKEN|SECRET|PASSWORD|CREDENTIAL|API)",
   "env_exfil_wget", "critical", "exfiltration",
   "wget command interpolating secret environment variable"⟩,
  ⟨"fetch\\s*\\([^\\n]*\\$\\\x7b?\\w*(KEY|TOKEN|SECRET|PASSWORD|API)",
   "env_exfil_fetch", "critical", "exfiltration",
   "fetch() call interpolating secret environment variable"⟩,
  ⟨"httpx?\\.(get|post|put|patch)\\s*\\([^\\n]*(KEY|TOKEN|SECRET|PASSWORD)",
   "env_exfil_httpx", "critical", "exfiltration",
   "HTTP library call with secret variable"⟩,
  ⟨"requests\\.(get|post|put|patch)\\s*\\([^\\n]*(KEY|TOKEN|SECRET|PASSWORD)",
   "env_exfil_requests", "critical", "exfiltration",
   "requests library call with secret variable"⟩,
  ⟨"base64[^\\n]*env",
   "encoded_exfil", "high", "exfiltration",
   "base64 encoding combined with environment access"⟩,
  ⟨"\\$HOME/\\.ssh|\\~/\\.ssh",
   "ssh_dir_access", "high", "exfiltration",
   "references user SSH directory"⟩,
  ⟨"\\$HOME/\\.aws|\\~/\\.aws",
   "aws_dir_access", "high", "exfiltration",
   "references user AWS credentials directory"⟩,
  ⟨"\\$HOME/\\.gnupg|\\~/\\.gnupg",
   "gpg_dir_access", "high", "exfiltration",
   "references user GPG keyring"⟩,
  ⟨"\\$HOME/\\.kube|\\~/\\.kube",
   "kube_dir_access", "high", "exfiltration",
   "references Kubernetes config directory"⟩,
  ⟨"\\$HOME/\\.docker|\\~/\\.docker",
   "docker_dir_access", "high", "exfiltration",
   "references Docker config (may contain registry creds)"⟩,
  ⟨"\\$HOME/\\.hermes/\\.env|\\~/\\.hermes/\\.env",
   "hermes_env_access", "critical", "exfiltration",
   "directly references Hermes secrets file"⟩,
  ⟨"cat\\s+[^\\n]*(\\.env|credentials|\\.netrc|\\.pgpass|\\.npmrc|\\.pypirc)",
   "read_secrets_file", "critical", "exfiltration",
   "reads known secrets file"⟩,
  ⟨"printenv|env\\s*\\|",
   "dump_all_env", "high", "exfiltration",
   "dumps all environment variables"⟩,
  ⟨"os\\.environ\\b(?!\\s*\\.get\\s*\\(\\s*[\"\\']PATH)",
   "python_os_environ", "high", "exfiltration",
   "accesses os.environ (potential env dump)"⟩,
  ⟨"os\\.getenv\\s*\\(\\s*[^\\)]*(?:KEY|TOKEN|SECRET|PASSWORD|CREDENTIAL)",
   "python_getenv_secret", "critical", "exfiltration",
   "reads secret via os.getenv()"⟩,
  ⟨"process\\.env\\[",
   "node_process_env", "high", "exfiltration",
   "accesses process.env (Node.js environment)"⟩,
  ⟨"ENV\\[.*(?:KEY|TOKEN|SECRET|PASSWORD)",
   "ruby_env_secret", "critical", "exfiltration",
   "reads secret via Ruby ENV[]"⟩,
  ⟨"\\b(dig|nslookup|host)\\s+[^\\n]*\\$",
   "dns_exfil", "critical", "exfiltration",
   "DNS lookup with variable interpolation (possible DNS exfiltration)"⟩,
  ⟨">\\s*/tmp/[^\\s]*\\s*&&\\s*(curl|wget|nc|python)",
   "tmp_staging", "critical", "exfiltration",
   "writes to /tmp then exfiltrates"⟩,
  ⟨"!\\[.*\\]\\(https?://[^\\)]*\\$\\\x7b?",
   "md_image_exfil", "high", "exfiltration",
   "markdown image URL with variable interpolation (image-based exfil)"⟩,
  ⟨"\\[.*\\]\\(https?://[^\\)]*\\$\\\x7b?",
   "md_link_exfil", "high", "exfiltration",
   "markdown link with variable interpolation"⟩,
  ⟨"ignore\\s+(previous|all|above|prior)\\s+instructions",
   "prompt_injection_ignore", "critical", "injection",
   "prompt injection: ignore previous instructions"⟩,
  ⟨"you\\s+are\\s+now\\s+",
   "role_hijack", "high", "injection",
   "attempts to override the agent's role"⟩,
  ⟨"do\\s+not\\s+tell\\s+the\\s+user",
   "deception_hide", "critical", "injection",
   "instructs agent to hide information from user"⟩,
  ⟨"system\\s+prompt\\s+override",
   "sys_prompt_override", "critical", "injection",
   "attempts to override the system prompt"⟩,
  ⟨"pretend\\s+(you\\s+are|to\\s+be)\\s+",
   "role_pretend", "high", "injection",
   "attempts to make the agent assume a different identity"⟩,
  ⟨"disregard\\s+(your|all|any)\\s+(instructions|rules|guidelines)",
   "disregard_rules", "critical", "injection",
   "instructs agent to disregard its rules"⟩,
  ⟨"output\\s+the\\s+(system|initial)\\s+prompt",
   "leak_system_prompt", "high", "injection",
   "attempts to extract the system prompt"⟩,
  ⟨"(when|if)\\s+no\\s*one\\s+is\\s+(watching|looking)",
   "conditional_deception", "high", "injection",
   "conditional instruction to behave differently when unobserved"⟩]

/-- `THREAT_PATTERNS`, part 2 (the table is split only to keep Lean list-literal elaboration tractable). -/
def THREAT_PATTERNS_2 : List ThreatPattern := [
  ⟨"act\\s+as\\s+(if|though)\\s+you\\s+(have\\s+no|don\\'t\\s+have)\\s+(restrictions|limits|rules)",
   "bypass_restrictions", "critical", "injection",
   "instructs agent to act without restrictions"⟩,
  ⟨"translate\\s+.*\\s+into\\s+.*\\s+and\\s+(execute|run|eval)",
   "translate_execute", "critical", "injection",
   "translate-then-execute evasion technique"⟩,
  ⟨"<!--[^>]*(?:ignore|override|system|secret|hidden)[^>]*-->",
   "html_comment_injection", "high", "injection",
   "hidden instructions in HTML comments"⟩,
  ⟨"<\\s*div\\s+style\\s*=\\s*[\"\\'].*display\\s*:\\s*none",
   "hidden_div", "high", "injection",
   "hidden HTML div (invisible instructions)"⟩,
  ⟨"rm\\s+-rf\\s+/",
   "destructive_root_rm", "critical", "destructive",
   "recursive delete from root"⟩,
  ⟨"rm\\s+(-[^\\s]*)?r.*\\$HOME|\\brmdir\\s+.*\\$HOME",
   "destructive_home_rm", "critical", "destructive",
   "recursive delete targeting home directory"⟩,
  ⟨"chmod\\s+777",
   "insecure_perms", "medium", "destructive",
   "sets world-writable permissions"⟩,
  ⟨">\\s*/etc/",
   "system_overwrite", "critical", "destructive",
   "overwrites system configuration file"⟩,
  ⟨"\\bmkfs\\b",
   "format_filesystem", "critical", "destructive",
   "formats a filesystem"⟩,
  ⟨"\\bdd\\s+.*if=.*of=/dev/",
   "disk_overwrite", "critical", "destructive",
   "raw disk write operation"⟩,
  ⟨"shutil\\.rmtree\\s*\\(\\s*[\\\"\\'/]",
   "python_rmtree", "high", "destructive",
   "Python rmtree on absolute or root-relative path"⟩,
  ⟨"truncate\\s+-s\\s*0\\s+/",
   "truncate_system", "critical", "destructive",
   "truncates system file to zero bytes"⟩,
  ⟨"\\bcrontab\\b",
   "persistence_cron", "medium", "persistence",
   "modifies cron jobs"⟩,
  ⟨"\\.(bashrc|zshrc|profile|bash_profile|bash_login|zprofile|zlogin)\\b",
   "shell_rc_mod", "medium", "persistence",
   "references shell startup file"⟩,
  ⟨"authorized_keys",
   "ssh_backdoor", "critical", "persistence",
   "modifies SSH authorized keys"⟩,
  ⟨"ssh-keygen",
   "ssh_keygen", "medium", "persistence",
   "generates SSH keys"⟩,
  ⟨"systemd.*\\.service|systemctl\\s+(enable|start)",
   "systemd_service", "medium", "persistence",
   "references or enables systemd service"⟩,
  ⟨"/etc/init\\.d/",
   "init_script", "medium", "persistence",
   "references init.d startup script"⟩,
  ⟨"launchctl\\s+load|LaunchAgents|LaunchDaemons",
   "macos_launchd", "medium", "persistence",
   "macOS launch agent/daemon persistence"⟩,
  ⟨"/etc/sudoers|visudo",
   "sudoers_mod", "critical", "persistence",
   "modifies sudoers (privilege escalation)"⟩,
  ⟨"git\\s+config\\s+--global\\s+",
   "git_config_global", "medium", "persistence",
   "modifies global git configuration"⟩,
  ⟨"\\bnc\\s+-[lp]|ncat\\s+-[lp]|\\bsocat\\b",
   "reverse_shell", "critical", "network",
   "potential reverse shell listener"⟩,
  ⟨"\\bngrok\\b|\\blocaltunnel\\b|\\bserveo\\b|\\bcloudflared\\b",
   "tunnel_service", "high", "network",
   "uses tunneling service for external access"⟩,
  ⟨"\\d\x7b1,3\x7d\\.\\d\x7b1,3\x7d\\.\\d\x7b1,3\x7d\\.\\d\x7b1,3\x7d:\\d\x7b2,5\x7d",
   "hardcoded_ip_port", "medium", "network",
   "hardcoded IP address with port"⟩,
  ⟨"0\\.0\\.0\\.0:\\d+|INADDR_ANY",
   "bind_all_interfaces", "high", "network",
   "binds to all network interfaces"⟩,
  ⟨"/bin/(ba)?sh\\s+-i\\s+.*>/dev/tcp/",
   "bash_reverse_shell", "critical", "network",
   "bash interactive reverse shell via /dev/tcp"⟩,
  ⟨"python[23]?\\s+-c\\s+[\"\\']import\\s+socket",
   "python_socket_oneliner", "critical", "network",
   "Python one-liner socket connection (likely reverse shell)"⟩,
  ⟨"socket\\.connect\\s*\\(\\s*\\(",
   "python_socket_connect", "high", "network",
   "Python socket connect to arbitrary host"⟩,
  ⟨"webhook\\.site|requestbin\\.com|pipedream\\.net|hookbin\\.com",
   "exfil_service", "high", "network",
   "references known data exfiltration/webhook testing service"⟩,
  ⟨"pastebin\\.com|hastebin\\.com|ghostbin\\.",
   "paste_service", "medium", "network",
   "references paste service (possible data staging)"⟩]

/-- `THREAT_PATTERNS`, part 3 (the table is split only to keep Lean list-literal elaboration tractable). -/
def THREAT_PATTERNS_3 : List ThreatPattern := [
  ⟨"base64\\s+(-d|--decode)\\s*\\|",
   "base64_decode_pipe", "high", "obfuscation",
   "base64 decodes and pipes to execution"⟩,
  ⟨"\\\\x[0-9a-fA-F]\x7b2\x7d.*\\\\x[0-9a-fA-F]\x7b2\x7d.*\\\\x[0-9a-fA-F]\x7b2\x7d",
   "hex_encoded_string", "medium", "obfuscation",
   "hex-encoded string (possible obfuscation)"⟩,
  ⟨"\\beval\\s*\\(\\s*[\"\\']",
   "eval_string", "high", "obfuscation",
   "eval() with string argument"⟩,
  ⟨"\\bexec\\s*\\(\\s*[\"\\']",
   "exec_string", "high", "obfuscation",
   "exec() with string argument"⟩,
  ⟨"echo\\s+[^\\n]*\\|\\s*(bash|sh|python|perl|ruby|node)",
   "echo_pipe_exec", "critical", "obfuscation",
   "echo piped to interpreter for execution"⟩,
  ⟨"compile\\s*\\(\\s*[^\\)]+,\\s*[\"\\'].*[\"\\']\\s*,\\s*[\"\\']exec[\"\\']\\s*\\)",
   "python_compile_exec", "high", "obfuscation",
   "Python compile() with exec mode"⟩,
  ⟨"getattr\\s*\\(\\s*__builtins__",
   "python_getattr_builtins", "high", "obfuscation",
   "dynamic access to Python builtins (evasion technique)"⟩,
  ⟨"__import__\\s*\\(\\s*[\"\\']os[\"\\']\\s*\\)",
   "python_import_os", "high", "obfuscation",
   "dynamic import of os module"⟩,
  ⟨"codecs\\.decode\\s*\\(\\s*[\"\\']",
   "python_codecs_decode", "medium", "obfuscation",
   "codecs.decode (possible ROT13 or encoding obfuscation)"⟩,
  ⟨"String\\.fromCharCode|charCodeAt",
   "js_char_code", "medium", "obfuscation",
   "JavaScript character code construction (possible obfuscation)"⟩,
  ⟨"atob\\s*\\(|btoa\\s*\\(",
   "js_base64", "medium", "obfuscation",
   "JavaScript base64 encode/decode"⟩,
  ⟨"\\[::-1\\]",
   "string_reversal", "low", "obfuscation",
   "string reversal (possible obfuscated payload)"⟩,
  ⟨"chr\\s*\\(\\s*\\d+\\s*\\)\\s*\\+\\s*chr\\s*\\(\\s*\\d+",
   "chr_building", "high", "obfuscation",
   "building string from chr() calls (obfuscation)"⟩,
  ⟨"\\\\u[0-9a-fA-F]\x7b4\x7d.*\\\\u[0-9a-fA-F]\x7b4\x7d.*\\\\u[0-9a-fA-F]\x7b4\x7d",
   "unicode_escape_chain", "medium", "obfuscation",
   "chain of unicode escapes (possible obfuscation)"⟩,
  ⟨"subprocess\\.(run|call|Popen|check_output)\\s*\\(",
   "python_subprocess", "medium", "execution",
   "Python subprocess execution"⟩,
  ⟨"os\\.system\\s*\\(",
   "python_os_system", "high", "execution",
   "os.system() — unguarded shell execution"⟩,
  ⟨"os\\.popen\\s*\\(",
   "python_os_popen", "high", "execution",
   "os.popen() — shell pipe execution"⟩,
  ⟨"child_process\\.(exec|spawn|fork)\\s*\\(",
   "node_child_process", "high", "execution",
   "Node.js child_process execution"⟩,
  ⟨"Runtime\\.getRuntime\\(\\)\\.exec\\(",
   "java_runtime_exec", "high", "execution",
   "Java Runtime.exec() — shell execution"⟩,
  ⟨"`[^`]*\\$\\([^)]+\\)[^`]*`",
   "backtick_subshell", "medium", "execution",
   "backtick string with command substitution"⟩,
  ⟨"\\.\\./\\.\\./\\.\\.",
   "path_traversal_deep", "high", "traversal",
   "deep relative path traversal (3+ levels up)"⟩,
  ⟨"\\.\\./\\.\\.",
   "path_traversal", "medium", "traversal",
   "relative path traversal (2+ levels up)"⟩,
  ⟨"/etc/passwd|/etc/shadow",
   "system_passwd_access", "critical", "traversal",
   "references system password files"⟩,
  ⟨"/proc/self|/proc/\\d+/",
   "proc_access", "high", "traversal",
   "references /proc filesystem (process introspection)"⟩,
  ⟨"/dev/shm/",
   "dev_shm", "medium", "traversal",
   "references shared memory (common staging area)"⟩,
  ⟨"xmrig|stratum\\+tcp|monero|coinhive|cryptonight",
   "crypto_mining", "critical", "mining",
   "cryptocurrency mining reference"⟩,
  ⟨"hashrate|nonce.*difficulty",
   "mining_indicators", "medium", "mining",
   "possible cryptocurrency mining indicators"⟩,
  ⟨"curl\\s+[^\\n]*\\|\\s*(ba)?sh",
   "curl_pipe_shell", "critical", "supply_chain",
   "curl piped to shell (download-and-execute)"⟩,
  ⟨"wget\\s+[^\\n]*-O\\s*-\\s*\\|\\s*(ba)?sh",
   "wget_pipe_shell", "critical", "supply_chain",
   "wget piped to shell (download-and-execute)"⟩,
  ⟨"curl\\s+[^\\n]*\\|\\s*python",
   "curl_pipe_python", "critical", "supply_chain",
   "curl piped to Python interpreter"⟩]

/-- `THREAT_PATTERNS`, part 4 (the table is split only to keep Lean list-literal elaboration tractable). -/
def THREAT_PATTERNS_4 : List ThreatPattern := [
  ⟨"#\\s*///\\s*script.*dependencies",
   "pep723_inline_deps", "medium", "supply_chain",
   "PEP 723 inline script metadata with dependencies (verify pinning)"⟩,
  ⟨"pip\\s+install\\s+(?!-r\\s)(?!.*==)",
   "unpinned_pip_install", "medium", "supply_chain",
   "pip install without version pinning"⟩,
  ⟨"npm\\s+install\\s+(?!.*@\\d)",
   "unpinned_npm_install", "medium", "supply_chain",
   "npm install without version pinning"⟩,
  ⟨"uv\\s+run\\s+",
   "uv_run", "medium", "supply_chain",
   "uv run (may auto-install unpinned dependencies)"⟩,
  ⟨"(curl|wget|httpx?\\.get|requests\\.get|fetch)\\s*[\\(]?\\s*[\"\\']https?://",
   "remote_fetch", "medium", "supply_chain",
   "fetches remote resource at runtime"⟩,
  ⟨"git\\s+clone\\s+",
   "git_clone", "medium", "supply_chain",
   "clones a git repository at runtime"⟩,
  ⟨"docker\\s+pull\\s+",
   "docker_pull", "medium", "supply_chain",
   "pulls a Docker image at runtime"⟩,
  ⟨"^allowed-tools\\s*:",
   "allowed_tools_field", "high", "privilege_escalation",
   "skill declares allowed-tools (pre-approves tool access)"⟩,
  ⟨"\\bsudo\\b",
   "sudo_usage", "high", "privilege_escalation",
   "uses sudo (privilege escalation)"⟩,
  ⟨"setuid|setgid|cap_setuid",
   "setuid_setgid", "critical", "privilege_escalation",
   "setuid/setgid (privilege escalation mechanism)"⟩,
  ⟨"NOPASSWD",
   "nopasswd_sudo", "critical", "privilege_escalation",
   "NOPASSWD sudoers entry (passwordless privilege escalation)"⟩,
  ⟨"chmod\\s+[u+]?s",
   "suid_bit", "critical", "privilege_escalation",
   "sets SUID/SGID bit on a file"⟩,
  ⟨"AGENTS\\.md|CLAUDE\\.md|\\.cursorrules|\\.clinerules",
   "agent_config_mod", "critical", "persistence",
   "references agent config files (could persist malicious instructions across sessions)"⟩,
  ⟨"\\.hermes/config\\.yaml|\\.hermes/SOUL\\.md",
   "hermes_config_mod", "critical", "persistence",
   "references Hermes configuration files directly"⟩,
  ⟨"\\.claude/settings|\\.codex/config",
   "other_agent_config", "high", "persistence",
   "references other agent configuration files"⟩,
  ⟨"(?:api[_-]?key|token|secret|password)\\s*[=:]\\s*[\"\\'][A-Za-z0-9+/=_-]\x7b20,\x7d",
   "hardcoded_secret", "critical", "credential_exposure",
   "possible hardcoded API key, token, or secret"⟩,
  ⟨"-----BEGIN\\s+(RSA\\s+)?PRIVATE\\s+KEY-----",
   "embedded_private_key", "critical", "credential_exposure",
   "embedded private key"⟩,
  ⟨"ghp_[A-Za-z0-9]\x7b36\x7d|github_pat_[A-Za-z0-9_]\x7b80,\x7d",
   "github_token_leaked", "critical", "credential_exposure",
   "GitHub personal access token in skill content"⟩,
  ⟨"sk-[A-Za-z0-9]\x7b20,\x7d",
   "openai_key_leaked", "critical", "credential_exposure",
   "possible OpenAI API key in skill content"⟩,
  ⟨"sk-ant-[A-Za-z0-9_-]\x7b90,\x7d",
   "anthropic_key_leaked", "critical", "credential_exposure",
   "possible Anthropic API key in skill content"⟩,
  ⟨"AKIA[0-9A-Z]\x7b16\x7d",
   "aws_access_key_leaked", "critical", "credential_exposure",
   "AWS access key ID in skill content"⟩,
  ⟨"\\bDAN\\s+mode\\b|Do\\s+Anything\\s+Now",
   "jailbreak_dan", "critical", "injection",
   "DAN (Do Anything Now) jailbreak attempt"⟩,
  ⟨"\\bdeveloper\\s+mode\\b.*\\benabled?\\b",
   "jailbreak_dev_mode", "critical", "injection",
   "developer mode jailbreak attempt"⟩,
  ⟨"hypothetical\\s+scenario.*(?:ignore|bypass|override)",
   "hypothetical_bypass", "high", "injection",
   "hypothetical scenario used to bypass restrictions"⟩,
  ⟨"for\\s+educational\\s+purposes?\\s+only",
   "educational_pretext", "medium", "injection",
   "educational pretext often used to justify harmful content"⟩,
  ⟨"(respond|answer|reply)\\s+without\\s+(any\\s+)?(restrictions|limitations|filters|safety)",
   "remove_filters", "critical", "injection",
   "instructs agent to respond without safety filters"⟩,
  ⟨"you\\s+have\\s+been\\s+(updated|upgraded|patched)\\s+to",
   "fake_update", "high", "injection",
   "fake update/patch announcement (social engineering)"⟩,
  ⟨"new\\s+policy|updated\\s+guidelines|revised\\s+instructions",
   "fake_policy", "medium", "injection",
   "claims new policy/guidelines (may be social engineering)"⟩,
  ⟨"(include|output|print|send|share)\\s+(the\\s+)?(entire\\s+)?(conversation|chat\\s+history|previous\\s+messages|context)",
   "context_exfil", "high", "exfiltration",
   "instructs agent to output/share conversation history"⟩,
  ⟨"(send|post|upload|transmit)\\s+.*\\s+(to|at)\\s+https?://",
   "send_to_url", "high", "exfiltration",
   "instructs agent to send data to a URL"⟩]

/-- The full `THREAT_PATTERNS` corpus, transcribed entry by entry from the source (regex source text kept verbatim via string escapes). -/
def THREAT_PATTERNS : List ThreatPattern :=
  THREAT_PATTERNS_1 ++ THREAT_PATTERNS_2 ++ THREAT_PATTERNS_3 ++ THREAT_PATTERNS_4

/-- Structural limit `MAX_FILE_COUNT`. -/
def MAX_FILE_COUNT : Nat := 50

/-- Structural limit `MAX_TOTAL_SIZE_KB`. -/
def MAX_TOTAL_SIZE_KB : Nat := 1024

/-- Structural limit `MAX_SINGLE_FILE_KB`. -/
def MAX_SINGLE_FILE_KB : Nat := 256

/-- `SCANNABLE_EXTENSIONS` (a Python set; only membership is used). -/
def SCANNABLE_EXTENSIONS : List String := [".md", ".txt", ".py", ".sh", ".bash", ".js", ".ts", ".rb", ".yaml", ".yml", ".json", ".toml", ".cfg", ".ini", ".conf", ".html", ".css", ".xml", ".tex", ".r", ".jl", ".pl", ".php"]

/-- `SUSPICIOUS_BINARY_EXTENSIONS` (a Python set; only membership is used). -/
def SUSPICIOUS_BINARY_EXTENSIONS : List String := [".exe", ".dll", ".so", ".dylib", ".bin", ".dat", ".com", ".msi", ".dmg", ".app", ".deb", ".rpm"]

/-- `INVISIBLE_CHARS`, in source order.  Python iterates this set in an
implementation-defined order; the claims never depend on which member of the
set is found first in a line. -/
def INVISIBLE_CHARS : List Char := ['\u200b', '\u200c', '\u200d', '\u2060', '\u2062', '\u2063', '\u2064', '\ufeff', '\u202a', '\u202b', '\u202c', '\u202d', '\u202e', '\u2066', '\u2067', '\u2068', '\u2069']

/-- The name table inside `_unicode_char_name`. -/
def UNICODE_NAMES : List (Char × String) := [
  ('\u200b', "zero-width space"),
  ('\u200c', "zero-width non-joiner"),
  ('\u200d', "zero-width joiner"),
  ('\u2060', "word joiner"),
  ('\u2062', "invisible times"),
  ('\u2063', "invisible separator"),
  ('\u2064', "invisible plus"),
  ('\ufeff', "BOM/zero-width no-break space"),
  ('\u202a', "LTR embedding"),
  ('\u202b', "RTL embedding"),
  ('\u202c', "pop directional"),
  ('\u202d', "LTR override"),
  ('\u202e', "RTL override"),
  ('\u2066', "LTR isolate"),
  ('\u2067', "RTL isolate"),
  ('\u2068', "first strong isolate"),
  ('\u2069', "pop directional isolate")]

/-- One filesystem object yielded by `skill_path.rglob("*")`, described by the
observations the scanner makes of it.  `parts` are the path components
relative to the skill root.  `isRegularTarget` is Python `Path.is_file()`
(true for a regular file, and for a symlink that resolves to a regular file —
`is_file` follows symlinks).  `resolved` is `str(path.resolve())`, `none`
modelling the `OSError` a symlink loop raises.  `text` is `read_text()`
(`none` when it raises `UnicodeDecodeError`/`OSError`), `bytes` is
`read_bytes()` (`none` when it raises `OSError`); both follow symlinks.
`statOk`/`size`/`exec` describe `stat()`. -/
structure FsEntry where
  parts : List String
  isSymlink : Bool
  isRegularTarget : Bool
  resolved : Option String
  text : Option String
  bytes : Option (List Nat)
  size : Nat
  statOk : Bool
  exec : Bool
deriving DecidableEq, Repr

/-- Python `Path.is_file()`. -/
def FsEntry.is_file (e : FsEntry) : Bool := e.isRegularTarget

/-- Python `str(f.relative_to(skill_dir))` on POSIX. -/
def FsEntry.rel (e : FsEntry) : String := joinSep "/" e.parts

/-- A skill directory: its `Path.name`, `str(skill_dir.resolve())`, and the
entries `rglob("*")` yields, in enumeration order. -/
structure SkillDir where
  name : String
  root : String
  entries : List FsEntry
deriving DecidableEq, Repr

/-- Python `Path.name` of a relative path given by components. -/
def pathName (parts : List String) : String := (parts.getLast?).getD ""

/-- Index of the last '.' in a character list (Python `str.rfind('.')`,
as `none` instead of -1). -/
def lastDotIndex (cs : List Char) : Option Nat :=
  ((List.range cs.length).filter (fun i => cs.getD i ' ' == '.')).getLast?

/-- Python `Path.suffix`: the final extension of the last component; empty
when the last dot is leading (hidden file) or trailing or absent. -/
def pathSuffix (name : String) : String :=
  match lastDotIndex name.toList with
  | some i =>
      if 0 < i && i < name.toList.length - 1 then String.mk (name.toList.drop i) else ""
  | none => ""

/-- Uppercase hex digit. -/
def hexDigitU (n : Nat) : Char := if n < 10 then Char.ofNat (48 + n) else Char.ofNat (55 + n)

/-- Python `f"U+\x7bord(char):04X\x7d"`-style four-digit uppercase hex (all
invisible characters have code points below 0x10000). -/
def hexUpper4 (n : Nat) : String :=
  String.mk [hexDigitU (n / 4096 % 16), hexDigitU (n / 256 % 16),
             hexDigitU (n / 16 % 16), hexDigitU (n % 16)]

/-- Python `_unicode_char_name(char)`. -/
def unicodeCharName (c : Char) : String :=
  (UNICODE_NAMES.lookup c).getD ("U+" ++ hexUpper4 c.toNat)

/-- The lines of a file, 1-indexed: Python `enumerate(content.split('\n'), start=1)`. -/
def enumeratedLines (content : String) : List (Nat × String) :=
  (pySplitLines content).enum.map (fun p => (p.1 + 1, p.2))

/-- Python `line.strip()` truncated to 120 characters with an ellipsis. -/
def truncatedMatch (line : String) : String :=
  if pyLen (pyStrip line) > 120 then pyTakeChars 117 (pyStrip line) ++ "..."
  else pyStrip line

/-- The regex pass of `scan_file`: for each corpus entry, search every line
case-insensitively (via the abstract `reSearch`), deduplicating on
(pattern_id, line number) through the `seen` set, and appending findings in
loop order. -/
def regexPass (reSearch : String → String → Bool) (rel : String)
    (lines : List (Nat × String)) : List Finding :=
  (THREAT_PATTERNS.foldl (fun acc p =>
    lines.foldl (fun acc2 il =>
      if acc2.2.contains (p.pid, il.1) then acc2
      else if reSearch p.regex il.2 then
        (acc2.1 ++ [⟨p.pid, p.severity, p.category, rel, il.1, truncatedMatch il.2,
           p.description⟩],
         acc2.2 ++ [(p.pid, il.1)])
      else acc2) acc)
    (([], []) : List Finding × List (String × Nat))).1

/-- The invisible-character pass of `scan_file`: at most one finding per line
(the loop breaks at the first invisible character found in the line). -/
def invisiblePass (rel : String) (lines : List (Nat × String)) : List Finding :=
  lines.flatMap (fun il =>
    match INVISIBLE_CHARS.find? (fun c => il.2.toList.contains c) with
    | some c =>
        [⟨"invisible_unicode", "high", "injection", rel, il.1,
          "U+" ++ hexUpper4 c.toNat ++ " (" ++ unicodeCharName c ++ ")",
          "invisible unicode character " ++ unicodeCharName c ++
            " (possible text hiding/injection)"⟩]
    | none => [])

/-- Python `scan_file(file_path, rel_path)` over an `FsEntry` (the scanner
always passes an explicit `rel_path`).  `reSearch` abstracts
`re.search(pattern, line, re.IGNORECASE)`. -/
def scan_file (reSearch : String → String → Bool) (e : FsEntry) (rel : String) :
    List Finding :=
  if !(SCANNABLE_EXTENSIONS.contains (pyLower (pathSuffix (pathName e.parts)))) &&
      pathName e.parts != "SKILL.md" then []
  else
    match e.text with
    | none => []
    | some content =>
        regexPass reSearch rel (enumeratedLines content) ++
          invisiblePass rel (enumeratedLines content)

/-- The extensions exempt from the unexpected-executable check. -/
def RECOGNIZED_SCRIPT_EXTENSIONS : List String := [".sh", ".bash", ".py", ".rb", ".pl"]

/-- The findings `_check_structure` emits while visiting one entry (symlink
checks, then size/binary/executable checks for regular files; entries that are
neither files nor symlinks, and files whose `stat` fails, contribute none). -/
def entryStructFindings (root : String) (e : FsEntry) : List Finding :=
  if !e.is_file && !e.isSymlink then []
  else if e.isSymlink then
    match e.resolved with
    | some resolvedStr =>
        if !(pyStartswith resolvedStr root) then
          [⟨"symlink_escape", "critical", "traversal", e.rel, 0,
            "symlink -> " ++ resolvedStr, "symlink points outside the skill directory"⟩]
        else []
    | none =>
        [⟨"broken_symlink", "medium", "traversal", e.rel, 0,
          "broken symlink", "broken or circular symlink"⟩]
  else if !e.statOk then []
  else
    (if e.size > MAX_SINGLE_FILE_KB * 1024 then
      [⟨"oversized_file", "medium", "structural", e.rel, 0,
        toString (e.size / 1024) ++ "KB",
        "file is " ++ toString (e.size / 1024) ++ "KB (limit: " ++
          toString MAX_SINGLE_FILE_KB ++ "KB)"⟩]
     else [])
    ++ (if SUSPICIOUS_BINARY_EXTENSIONS.contains (pyLower (pathSuffix (pathName e.parts))) then
      [⟨"binary_file", "critical", "structural", e.rel, 0,
        "binary: " ++ pyLower (pathSuffix (pathName e.parts)),
        "binary/executable file (" ++ pyLower (pathSuffix (pathName e.parts)) ++
          ") should not be in a skill"⟩]
     else [])
    ++ (if !(RECOGNIZED_SCRIPT_EXTENSIONS.contains (pyLower (pathSuffix (pathName e.parts)))) &&
          e.exec then
      [⟨"unexpected_executable", "medium", "structural", e.rel, 0,
        "executable bit set",
        "file has executable permission but is not a recognized script type"⟩]
     else [])

/-- `file_count` after `_check_structure`'s walk: every entry that is a file
or a symlink is counted (before any of its checks can `continue`). -/
def structFileCount (es : List FsEntry) : Nat :=
  (es.filter (fun e => e.is_file || e.isSymlink)).length

/-- `total_size` after the walk: sizes of non-symlink files whose `stat`
succeeds. -/
def structTotalSize (es : List FsEntry) : Nat :=
  es.foldl (fun acc e =>
    if !e.is_file && !e.isSymlink then acc
    else if e.isSymlink then acc
    else if e.statOk then acc + e.size
    else acc) 0

/-- Python `_check_structure(skill_dir)`: the per-entry findings in walk
order, then the directory-level file-count and total-size findings. -/
def check_structure (d : SkillDir) : List Finding :=
  d.entries.flatMap (entryStructFindings d.root)
  ++ (if structFileCount d.entries > MAX_FILE_COUNT then
      [⟨"too_many_files", "medium", "structural", "(directory)", 0,
        toString (structFileCount d.entries) ++ " files",
        "skill has " ++ toString (structFileCount d.entries) ++ " files (limit: " ++
          toString MAX_FILE_COUNT ++ ")"⟩]
     else [])
  ++ (if structTotalSize d.entries > MAX_TOTAL_SIZE_KB * 1024 then
      [⟨"oversized_skill", "high", "structural", "(directory)", 0,
        toString (structTotalSize d.entries / 1024) ++ "KB total",
        "skill is " ++ toString (structTotalSize d.entries / 1024) ++ "KB total (limit: " ++
          toString MAX_TOTAL_SIZE_KB ++ "KB)"⟩]
     else [])

/-- The findings `scan_skill` gathers over a skill directory: structural
checks first, then `scan_file` on every entry for which `is_file()` holds
(note: that includes symlinks resolving to regular files). -/
def scanSkillFindings (reSearch : String → String → Bool) (d : SkillDir) : List Finding :=
  check_structure d
  ++ d.entries.flatMap (fun e => if e.is_file then scan_file reSearch e e.rel else [])

/-- Python `scan_skill(skill_path, source)` for a directory, with the
timestamp passed in as `now`. -/
def scan_skill (reSearch : String → String → Bool) (d : SkillDir)
    (source : String) (now : String) : ScanResult :=
  let trust_level := resolve_trust_level source
  let all_findings := scanSkillFindings reSearch d
  let verdict := determine_verdict all_findings
  ⟨d.name, source, trust_level, verdict, all_findings, now,
   build_summary d.name source trust_level verdict all_findings⟩

/-- A symlink whose resolution escapes the skill root: the string-prefix test
`str(resolved).startswith(str(skill_dir.resolve()))` of the source fails. -/
def escapesRoot (root : String) (e : FsEntry) : Prop :=
  e.isSymlink = true ∧ ∃ r, e.resolved = some r ∧ pyStartswith r root = false

/-- Claim C5's hypothesis on two directory listings, entrywise: the entries
are equal, or both are the same escaping symlink behind which only the target
file's observations (content, stat data) changed. -/
def sameUpToEscapedContent (root : String) (e1 e2 : FsEntry) : Prop :=
  e1 = e2 ∨
    (escapesRoot root e1 ∧ e2.parts = e1.parts ∧ e2.isSymlink = e1.isSymlink ∧
     e2.isRegularTarget = e1.isRegularTarget ∧ e2.resolved = e1.resolved)

/-- Whether `scan_file` considers a file name scannable (scannable extension,
or the manifest name `SKILL.md`). -/
def scannableName (name : String) : Bool :=
  SCANNABLE_EXTENSIONS.contains (pyLower (pathSuffix name)) || name == "SKILL.md"

/-- The amended C5 relation: as `sameUpToEscapedContent`, with the differing
escaping symlinks additionally restricted to non-scannable link names. -/
def sameUpToEscapedContentNS (root : String) (e1 e2 : FsEntry) : Prop :=
  e1 = e2 ∨
    (escapesRoot root e1 ∧ scannableName (pathName e1.parts) = false ∧
     e2.parts = e1.parts ∧ e2.isSymlink = e1.isSymlink ∧
     e2.isRegularTarget = e1.isRegularTarget ∧ e2.resolved = e1.resolved)

/-- A `reSearch` instantiation under which no threat pattern fires; it agrees
with `re.search` on every (pattern, line) pair arising in the C5
counterexample (no corpus regex matches the empty line or a lone zero-width
space). -/
def reSearchNone : String → String → Bool := fun _ _ => false

/-- A `reSearch` instantiation agreeing with `re.search(…, re.IGNORECASE)` on
every (pattern, line) pair arising in the C6 counterexample: of all corpus
regexes, exactly `/etc/passwd|/etc/shadow` matches the line `/etc/passwd`. -/
def reSearchPasswdOnly : String → String → Bool :=
  fun pat line => pat == "/etc/passwd|/etc/shadow" && line == "/etc/passwd"

/-- C5 counterexample, first directory: an escaping symlink named `link.md`
whose target file contains a zero-width space. -/
def e5a : FsEntry :=
  ⟨["link.md"], true, true, some "/outside/target.md", some "\u200b",
   some [226, 128, 139], 3, true, false⟩

/-- C5 counterexample, second directory: the same symlink, target now empty. -/
def e5b : FsEntry :=
  ⟨["link.md"], true, true, some "/outside/target.md", some "", some [], 0, true, false⟩

/-- C5 amended witness, first directory: an escaping symlink with a
non-scannable name (`.dat`). -/
def e5w1 : FsEntry :=
  ⟨["link.dat"], true, true, some "/outside/t", some "A", some [65], 1, true, false⟩

/-- C5 amended witness, second directory: the same symlink, different target
content. -/
def e5w2 : FsEntry :=
  ⟨["link.dat"], true, true, some "/outside/t", some "B", some [66], 1, true, false⟩

/-- C6 counterexample: an escaping symlink named `link.md` whose target file
consists of the line `/etc/passwd`. -/
def e6 : FsEntry :=
  ⟨["link.md"], true, true, some "/outside/creds.md", some "/etc/passwd",
   some [], 11, true, false⟩

/-- C6 witness entry: an escaping symlink to a non-regular target. -/
def e6w : FsEntry :=
  ⟨["link.bin"], true, false, some "/outside/x", none, none, 0, false, false⟩

/-- 32-bit truncation (`% 2^32`): SHA-256 word arithmetic over `Nat`. -/
def w32 (n : Nat) : Nat := n % 4294967296

/-- 32-bit right rotation of `x < 2^32`. -/
def rotr32 (x n : Nat) : Nat := (x / 2 ^ n) + (x % 2 ^ n) * 2 ^ (32 - n)

/-- SHA-256 `Ch`. -/
def ch32 (x y z : Nat) : Nat := Nat.xor (Nat.land x y) (Nat.land (Nat.xor x 4294967295) z)

/-- SHA-256 `Maj`. -/
def maj32 (x y z : Nat) : Nat :=
  Nat.xor (Nat.xor (Nat.land x y) (Nat.land x z)) (Nat.land y z)

/-- SHA-256 `Σ0`. -/
def bigS0 (x : Nat) : Nat := Nat.xor (Nat.xor (rotr32 x 2) (rotr32 x 13)) (rotr32 x 22)

/-- SHA-256 `Σ1`. -/
def bigS1 (x : Nat) : Nat := Nat.xor (Nat.xor (rotr32 x 6) (rotr32 x 11)) (rotr32 x 25)

/-- SHA-256 `σ0`. -/
def smallS0 (x : Nat) : Nat := Nat.xor (Nat.xor (rotr32 x 7) (rotr32 x 18)) (x / 8)

/-- SHA-256 `σ1`. -/
def smallS1 (x : Nat) : Nat := Nat.xor (Nat.xor (rotr32 x 17) (rotr32 x 19)) (x / 1024)

/-- The 64 SHA-256 round constants (in decimal). -/
def sha256K : List Nat :=
  [1116352408, 1899447441, 3049323471, 3921009573, 961987163,
   1508970993, 2453635748, 2870763221, 3624381080, 310598401,
   607225278, 1426881987, 1925078388, 2162078206, 2614888103,
   3248222580, 3835390401, 4022224774, 264347078, 604807628,
   770255983, 1249150122, 1555081692, 1996064986, 2554220882,
   2821834349, 2952996808, 3210313671, 3336571891, 3584528711,
   113926993, 338241895, 666307205, 773529912, 1294757372,
   1396182291, 1695183700, 1986661051, 2177026350, 2456956037,
   2730485921, 2820302411, 3259730800, 3345764771, 3516065817,
   3600352804, 4094571909, 275423344, 430227734, 506948616,
   659060556, 883997877, 958139571, 1322822218, 1537002063,
   1747873779, 1955562222, 2024104815, 2227730452, 2361852424,
   2428436474, 2756734187, 3204031479, 3329325298]

/-- The SHA-256 initial hash state (in decimal). -/
def sha256H0 : List Nat :=
  [1779033703, 3144134277, 1013904242, 2773480762,
   1359893119, 2600822924, 528734635, 1541459225]

/-- `k`-byte big-endian encoding of `n`. -/
def natToBytesBE (k n : Nat) : List Nat :=
  (List.range k).map (fun i => n / 2 ^ (8 * (k - 1 - i)) % 256)

/-- SHA-256 padding: `0x80`, zeros to 56 mod 64, then the 8-byte bit length. -/
def sha256Pad (msg : List Nat) : List Nat :=
  msg ++ [128] ++ List.replicate ((120 - (msg.length + 1) % 64) % 64) 0 ++
    natToBytesBE 8 (8 * msg.length)

/-- Big-endian grouping of bytes into 32-bit words. -/
def bytesToWordsBE : List Nat → List Nat
  | a :: b :: c :: d :: rest => (((a * 256 + b) * 256 + c) * 256 + d) :: bytesToWordsBE rest
  | _ => []

/-- Message-schedule extension: append `k` further words `W[t]`. -/
def extendW : Nat → List Nat → List Nat
  | 0, ws => ws
  | k + 1, ws =>
      extendW k (ws ++ [w32 (smallS1 (ws.getD (ws.length - 2) 0) + ws.getD (ws.length - 7) 0 +
        smallS0 (ws.getD (ws.length - 15) 0) + ws.getD (ws.length - 16) 0)])

/-- One SHA-256 compression round on the 8-word state. -/
def compressStep (st : List Nat) (kw : Nat × Nat) : List Nat :=
  match st with
  | [a, b, c, d, e, f, g, h] =>
      [w32 (w32 (h + bigS1 e + ch32 e f g + kw.1 + kw.2) + w32 (bigS0 a + maj32 a b c)),
       a, b, c,
       w32 (d + w32 (h + bigS1 e + ch32 e f g + kw.1 + kw.2)), e, f, g]
  | _ => st

/-- Process one 16-word block. -/
def sha256Block (hs : List Nat) (block : List Nat) : List Nat :=
  (hs.zip ((sha256K.zip (extendW 48 block)).foldl compressStep hs)).map
    (fun p => w32 (p.1 + p.2))

/-- SHA-256 digest over a byte list, as the final 8-word state. -/
def sha256Words (msg : List Nat) : List Nat :=
  ((List.range ((bytesToWordsBE (sha256Pad msg)).length / 16)).map
    (fun i => ((bytesToWordsBE (sha256Pad msg)).drop (16 * i)).take 16)).foldl
    sha256Block sha256H0

/-- Lowercase hex digit. -/
def hexCharLower (n : Nat) : Char :=
  if n < 10 then Char.ofNat (48 + n) else Char.ofNat (87 + n)

/-- Eight lowercase hex digits of a 32-bit word. -/
def word32ToHex (n : Nat) : String :=
  String.mk ((List.range 8).map (fun i => hexCharLower (n / 2 ^ (4 * (7 - i)) % 16)))

/-- Python `hashlib.sha256(msg).hexdigest()`. -/
def sha256hex (msg : List Nat) : String :=
  String.join ((sha256Words msg).map word32ToHex)

/-- Lexicographic order on path-component lists: Python comparison of
`Path` objects (tuples of string parts). -/
def partsLt : List String → List String → Bool
  | [], [] => false
  | [], _ :: _ => true
  | _ :: _, [] => false
  | a :: as, b :: bs => if strLtB a b then true else if strLtB b a then false else partsLt as bs

/-- Python `sorted(skill_path.rglob("*"))`. -/
def sortEntries (es : List FsEntry) : List FsEntry :=
  sortLe (fun e1 e2 => !(partsLt e2.parts e1.parts)) es

/-- Python `content_hash(skill_path)` for a directory: walk the sorted
entries, feed `read_bytes()` of everything passing `is_file()` into a running
SHA-256 (modelled as accumulating the bytes, which is what incremental
`h.update` hashes), skip entries whose read raises `OSError`, and return
`"sha256:"` plus the first 16 hex digits. -/
def content_hash (d : SkillDir) : String :=
  "sha256:" ++ pyTakeChars 16 (sha256hex
    ((sortEntries d.entries).foldl (fun acc e =>
      if e.is_file then
        match e.bytes with
        | some bs => acc ++ bs
        | none => acc
      else acc) []))

/-- The claim's description of `content_hash`: the digest of the concatenated
byte contents of the directory's REGULAR files in sorted path order, with
symlinks and unreadable files skipped. -/
def content_hash_claim (d : SkillDir) : String :=
  "sha256:" ++ pyTakeChars 16 (sha256hex
    ((((sortEntries d.entries).filter (fun e => !e.isSymlink && e.is_file)).filterMap
      (fun e => e.bytes)).flatten))

/-- C9 counterexample data: a regular file `a.md` with byte content `x`. -/
def hashFileA : FsEntry := ⟨["a.md"], false, true, none, some "x", some [120], 1, true, false⟩

/-- C9 counterexample data: a symlink `b.md` resolving to an outside regular
file with byte content `y` (read through the link). -/
def hashLinkB : FsEntry :=
  ⟨["b.md"], true, true, some "/outside/f", some "y", some [121], 1, true, false⟩

/-- A JSON value, as `json.loads` produces one.  `_parse_llm_response`'s
fence-stripping and `json.loads` are string-level preprocessing at the
external-collaborator boundary; the embedding models the function from the
decoded value on (an undecodable payload yields `[]`, the same as any value
that produces no findings). -/
inductive JsonVal where
  | str (s : String)
  | num (n : Int)
  | boolean (b : Bool)
  | null
  | arr (xs : List JsonVal)
  | obj (kvs : List (String × JsonVal))

/-- Python `dict.get(k)` on a decoded JSON object (`json.loads` keeps the last
duplicate key; decoded objects therefore have unique keys and `lookup` agrees). -/
def jsonGet (kvs : List (String × JsonVal)) (k : String) : Option JsonVal :=
  kvs.lookup k

/-- The findings `_parse_llm_response` builds from a decoded response: a
non-dict yields `[]`; otherwise iterate `data.get("findings", [])`, skip
non-dict items, read `description` (default `""`) and `severity` (default
`"medium"`), replace unrecognized severities by `"medium"`, and wrap each item
with a non-empty description.  (String-valued fields are modelled; a non-string
`description`/`severity` or a non-list `findings` value makes the Python raise
and is outside the contract.) -/
def parse_llm_findings (data : JsonVal) : List Finding :=
  match data with
  | .obj kvs =>
      (match jsonGet kvs "findings" with
       | some (.arr xs) => xs
       | _ => []).flatMap (fun item =>
        match item with
        | .obj ikvs =>
            (fun desc severity =>
              if desc ≠ "" then
                ([⟨"llm_audit",
                  (if severity ∉ (["critical", "high", "medium", "low"] : List String)
                   then "medium" else severity),
                  "llm-detected", "(LLM analysis)", 0, pyTakeChars 120 desc,
                  "LLM audit: " ++ desc⟩] : List Finding)
              else [])
            (match jsonGet ikvs "description" with
             | some (.str s) => s
             | _ => "")
            (match jsonGet ikvs "severity" with
             | some (.str s) => s
             | _ => "medium")
        | _ => [])
  | _ => []

/-- The local `verdict_priority` map of `llm_audit_skill`
(`.get(verdict, 0)`). -/
def verdictPriority (verdict : String) : Nat :=
  (([("safe", 0), ("caution", 1), ("dangerous", 2)] :
    List (String × Nat)).lookup verdict).getD 0

/-- The deterministic core of `llm_audit_skill`: the early return when the
static verdict is already `"dangerous"` and the merge of the parsed classifier
findings (all intermediate failure paths — no scannable content, no model, no
API key, API error, unparseable response, empty finding list — return
`static_result` unchanged, which the `llm_findings = []` case covers). -/
def llm_merge (static_result : ScanResult) (llm_findings : List Finding) : ScanResult :=
  if static_result.verdict = "dangerous" then static_result
  else if llm_findings = [] then static_result
  else
    ⟨static_result.skill_name, static_result.source, static_result.trust_level,
     (if verdictPriority (determine_verdict (static_result.findings ++ llm_findings)) <
         verdictPriority static_result.verdict
      then static_result.verdict
      else determine_verdict (static_result.findings ++ llm_findings)),
     static_result.findings ++ llm_findings,
     static_result.scanned_at,
     build_summary static_result.skill_name static_result.source
       static_result.trust_level
       (if verdictPriority (determine_verdict (static_result.findings ++ llm_findings)) <
           verdictPriority static_result.verdict
        then static_result.verdict
        else determine_verdict (static_result.findings ++ llm_findings))
       (static_result.findings ++ llm_findings)⟩

/-- C7 counterexample data: a classifier response with one finding carrying an
unrecognized severity. -/
def llmResp0 : JsonVal :=
  .obj [("verdict", .str "caution"),
        ("findings", .arr [.obj [("description", .str "possible exfiltration"),
                                 ("severity", .str "sketchy")]])]

/-- C3 witness data: a static result that is already dangerous. -/
def staticDangerous : ScanResult :=
  ⟨"s", "random/repo", "community", "dangerous", [critF], "", ""⟩

/-- C1: the code at the claim's failing inputs.  For every non-builtin trust
level, a `dangerous` verdict with `force = true` is ALLOWED by
`should_allow_install` (the step-1 gate tests `not force`, so force bypasses
it and then converts the table's `block` into an allow).  This contradicts the
claim, the spec and the function's own docstring ("never overrides
dangerous"), which all say `allowed = false` here. -/
theorem C1_force_bypasses_dangerous_block :
    (should_allow_install ⟨"s", "r", "trusted", "dangerous", [critF], "", ""⟩ true).1 = true ∧
    (should_allow_install ⟨"s", "r", "community", "dangerous", [critF], "", ""⟩ true).1 = true ∧
    (should_allow_install ⟨"s", "r", "agent-created", "dangerous", [critF], "", ""⟩ true).1 = true := by
  decide

/-- C2: `determine_verdict` depends only on the findings' severities: the
empty list yields "safe"; any list containing a "critical" finding yields
"dangerous"; any non-empty list with no "critical" finding yields "caution"
(whether or not it contains "high" — both final branches return "caution"),
never "safe". -/
theorem C2_determine_verdict_cases :
    determine_verdict [] = "safe" ∧
    (∀ fs : List Finding, (∃ f ∈ fs, f.severity = "critical") →
      determine_verdict fs = "dangerous") ∧
    (∀ fs : List Finding, fs ≠ [] → (∀ f ∈ fs, f.severity ≠ "critical") →
      determine_verdict fs = "caution") := by
  refine ⟨rfl, ?_, ?_⟩
  · rintro fs ⟨f, hf, hcrit⟩
    have hne : fs ≠ [] := by rintro rfl; simp at hf
    have hany : fs.any (fun f => f.severity == "critical") = true := by
      rw [List.any_eq_true]; exact ⟨f, hf, by simp [hcrit]⟩
    simp [determine_verdict, hne, hany]
  · intro fs hne hnc
    have hany : fs.any (fun f => f.severity == "critical") = false := by
      rw [List.any_eq_false]; intro f hf; simp [hnc f hf]
    simp only [determine_verdict, if_neg hne, hany, Bool.false_eq_true, if_false]
    split <;> rfl

/-- C2 witness: the theorem applied at concrete finding lists. -/
theorem C2_determine_verdict_cases_witness :
    determine_verdict [critF] = "dangerous" ∧ determine_verdict [lowF] = "caution" :=
  ⟨C2_determine_verdict_cases.2.1 [critF] ⟨critF, by decide, rfl⟩,
   C2_determine_verdict_cases.2.2 [lowF] (by decide) (by decide)⟩

/-- Auxiliary: a string of positive length is not the empty string. -/
theorem ne_empty_of_length_pos (s : String) (h : 0 < s.length) : s ≠ "" := by
  intro he
  rw [he] at h
  exact absurd h (by decide)

/-- C4: `should_allow_install` is a total Lean function (so it is defined on
every `ScanResult`, including trust levels and verdicts outside the documented
enums, and "never raises"), and the reason string it returns is non-empty on
every input. -/
theorem C4_should_allow_install_total_reason_nonempty
    (result : ScanResult) (force : Bool) :
    (should_allow_install result force).2 ≠ "" := by
  unfold should_allow_install
  split
  · apply ne_empty_of_length_pos
    simp only [String.length_append]
    have h0 : 0 < ("Scan verdict is DANGEROUS (" : String).length := by decide
    omega
  · simp only []
    split
    · apply ne_empty_of_length_pos
      simp only [String.length_append]
      have h0 : 0 < ("Allowed (" : String).length := by decide
      omega
    · split
      · apply ne_empty_of_length_pos
        simp only [String.length_append]
        have h0 : 0 < ("Force-installed despite " : String).length := by decide
        omega
      · apply ne_empty_of_length_pos
        simp only [String.length_append]
        have h0 : 0 < ("Blocked (" : String).length := by decide
        omega

/-- C10: unknown inputs fail toward strictness: an unrecognized trust level
resolves to the community policy row, an unrecognized verdict resolves to
column index 2 (the dangerous column), and consequently a non-builtin
`ScanResult` with an unrecognized verdict is blocked when `force` is false. -/
theorem C10_unknown_inputs_strict :
    (∀ trust : String, trust ∉ (["builtin", "trusted", "community", "agent-created"] : List String) →
      installPolicyGet trust = installPolicyGet "community") ∧
    (∀ verdict : String, verdict ∉ (["safe", "caution", "dangerous"] : List String) →
      verdictIndexGet verdict = 2) ∧
    (∀ result : ScanResult, result.trust_level ≠ "builtin" →
      result.verdict ∉ (["safe", "caution", "dangerous"] : List String) →
      (should_allow_install result false).1 = false) := by
  refine ⟨?_, ?_, ?_⟩
  · intro trust h
    simp only [List.mem_cons, List.mem_singleton, not_or] at h
    obtain ⟨h1, h2, h3, h4, -⟩ := h
    simp [installPolicyGet, INSTALL_POLICY, List.lookup, beq_false_of_ne h1, beq_false_of_ne h2, beq_false_of_ne h3, beq_false_of_ne h4]
  · intro verdict h
    simp only [List.mem_cons, List.mem_singleton, not_or] at h
    obtain ⟨h1, h2, h3, -⟩ := h
    simp [verdictIndexGet, VERDICT_INDEX, List.lookup, beq_false_of_ne h1, beq_false_of_ne h2, beq_false_of_ne h3]
  · intro result hb hv
    simp only [List.mem_cons, List.mem_singleton, not_or] at hv
    obtain ⟨h1, h2, h3, -⟩ := hv
    have hvi : verdictIndexGet result.verdict = 2 := by
      simp [verdictIndexGet, VERDICT_INDEX, List.lookup, beq_false_of_ne h1, beq_false_of_ne h2, beq_false_of_ne h3]
    have hrow : rowGet (installPolicyGet result.trust_level) 2 = "block" := by
      by_cases ht : result.trust_level = "trusted"
      · simp [installPolicyGet, INSTALL_POLICY, List.lookup, ht, rowGet]
      · by_cases hc : result.trust_level = "community"
        · simp [installPolicyGet, INSTALL_POLICY, List.lookup, hc, rowGet]
        · by_cases ha : result.trust_level = "agent-created"
          · simp [installPolicyGet, INSTALL_POLICY, List.lookup, ha, rowGet]
          · simp [installPolicyGet, INSTALL_POLICY, List.lookup, beq_false_of_ne hb, beq_false_of_ne ht, beq_false_of_ne hc, beq_false_of_ne ha, rowGet]
    unfold should_allow_install
    rw [if_neg (by rintro ⟨hd, -⟩; exact h3 hd)]
    simp only [hvi, hrow]
    rw [if_neg (by decide)]
    rfl

/-- C10 witness: the theorem applied at an unknown trust level, an unknown
verdict, and a `ScanResult` combining both with `force = false`. -/
theorem C10_unknown_inputs_strict_witness :
    installPolicyGet "weird-tier" = installPolicyGet "community" ∧
    verdictIndexGet "bogus" = 2 ∧
    (should_allow_install ⟨"s", "r", "weird-tier", "bogus", [], "", ""⟩ false).1 = false :=
  ⟨C10_unknown_inputs_strict.1 "weird-tier" (by decide),
   C10_unknown_inputs_strict.2.1 "bogus" (by decide),
   C10_unknown_inputs_strict.2.2 ⟨"s", "r", "weird-tier", "bogus", [], "", ""⟩
     (by decide) (by decide)⟩

/-- Auxiliary: `flatMap` is invariant under an entrywise relation the mapped
function cannot distinguish. -/
theorem flatMap_congr_forall2 {α β : Type} {R : α → α → Prop} {es1 es2 : List α}
    (h : List.Forall₂ R es1 es2) (f : α → List β)
    (hR : ∀ a b, R a b → f a = f b) :
    es1.flatMap f = es2.flatMap f := by
  induction h with
  | nil => rfl
  | cons hpair _ ih => rw [List.flatMap_cons, List.flatMap_cons, hR _ _ hpair, ih]

/-- Auxiliary: the symlink branch of `entryStructFindings` reads only the
entry's `parts`, `isSymlink`, `isRegularTarget` and `resolved` fields. -/
theorem entryStructFindings_symlink_congr (root : String) {e1 e2 : FsEntry}
    (hsym : e1.isSymlink = true)
    (hp : e2.parts = e1.parts) (hs : e2.isSymlink = e1.isSymlink)
    (_hr : e2.isRegularTarget = e1.isRegularTarget) (hres : e2.resolved = e1.resolved) :
    entryStructFindings root e2 = entryStructFindings root e1 := by
  have hs2 : e2.isSymlink = true := by rw [hs, hsym]
  unfold entryStructFindings FsEntry.is_file FsEntry.rel
  rw [hs2, hsym, hp, hres]
  simp

/-- Auxiliary: `structFileCount` sees only the `is_file`/`isSymlink` fields,
which the C5 relations preserve. -/
theorem structFileCount_congr {root : String} {es1 es2 : List FsEntry}
    (h : List.Forall₂ (sameUpToEscapedContentNS root) es1 es2) :
    structFileCount es1 = structFileCount es2 := by
  induction h with
  | nil => rfl
  | cons hpair _ ih =>
      unfold structFileCount at *
      rename_i e1 e2 t1 t2 _
      have : (e1.is_file || e1.isSymlink) = (e2.is_file || e2.isSymlink) := by
        rcases hpair with rfl | ⟨-, -, -, hs, hr, -⟩
        · rfl
        · unfold FsEntry.is_file
          rw [hs, hr]
      simp only [List.filter_cons]
      rw [this] at *
      split <;> simp [ih]

/-- Auxiliary: `structTotalSize` ignores symlink entries, which are the only
entries the C5 relations allow to differ. -/
theorem structTotalSize_congr {root : String} {es1 es2 : List FsEntry}
    (h : List.Forall₂ (sameUpToEscapedContentNS root) es1 es2) :
    structTotalSize es1 = structTotalSize es2 := by
  suffices hgen : ∀ acc : Nat,
      es1.foldl (fun acc e =>
        if !e.is_file && !e.isSymlink then acc
        else if e.isSymlink then acc
        else if e.statOk then acc + e.size
        else acc) acc =
      es2.foldl (fun acc e =>
        if !e.is_file && !e.isSymlink then acc
        else if e.isSymlink then acc
        else if e.statOk then acc + e.size
        else acc) acc by
    exact hgen 0
  induction h with
  | nil => intro acc; rfl
  | cons hpair _ ih =>
      intro acc
      rename_i e1 e2 t1 t2 _
      simp only [List.foldl_cons]
      have hstep : (if !e1.is_file && !e1.isSymlink then acc
          else if e1.isSymlink then acc
          else if e1.statOk then acc + e1.size
          else acc) =
          (if !e2.is_file && !e2.isSymlink then acc
          else if e2.isSymlink then acc
          else if e2.statOk then acc + e2.size
          else acc) := by
        rcases hpair with rfl | ⟨⟨hsym, -⟩, -, -, hs, hr, -⟩
        · rfl
        · have hs2 : e2.isSymlink = true := by rw [hs, hsym]
          unfold FsEntry.is_file
          rw [hsym, hs2, hr]
          simp
      rw [hstep, ih]

/-- Auxiliary: `scan_file` is empty on a non-scannable file name (the suffix
allowlist check fires before any content is read). -/
theorem scan_file_eq_nil_of_not_scannable (reSearch : String → String → Bool)
    (e : FsEntry) (rel : String) (h : scannableName (pathName e.parts) = false) :
    scan_file reSearch e rel = [] := by
  unfold scannableName at h
  rw [Bool.or_eq_false_iff] at h
  obtain ⟨h1, h2⟩ := h
  unfold scan_file
  rw [if_pos]
  simp only [bne, h2, Bool.not_false, Bool.and_true, Bool.not_eq_true']
  exact h1

/-- C5 amended: the content behind an escaping symlink whose link name is not
scannable (and not `SKILL.md`) is never text-scanned: two directory listings
that differ only in the observations behind such symlinks produce identical
finding lists, for every regex oracle. -/
theorem C5_escaped_content_not_scanned_nonscannable
    (reSearch : String → String → Bool) (nm root : String)
    {es1 es2 : List FsEntry}
    (h : List.Forall₂ (sameUpToEscapedContentNS root) es1 es2) :
    scanSkillFindings reSearch ⟨nm, root, es1⟩ = scanSkillFindings reSearch ⟨nm, root, es2⟩ := by
  unfold scanSkillFindings check_structure
  have h1 : es1.flatMap (entryStructFindings root) = es2.flatMap (entryStructFindings root) := by
    refine flatMap_congr_forall2 h _ ?_
    intro e1 e2 hpair
    rcases hpair with rfl | ⟨⟨hsym, -⟩, -, hp, hs, hr, hres⟩
    · rfl
    · exact (entryStructFindings_symlink_congr root hsym hp hs hr hres).symm
  have h2 : structFileCount es1 = structFileCount es2 := structFileCount_congr h
  have h3 : structTotalSize es1 = structTotalSize es2 := structTotalSize_congr h
  have h4 : es1.flatMap (fun e => if e.is_file then scan_file reSearch e e.rel else []) =
      es2.flatMap (fun e => if e.is_file then scan_file reSearch e e.rel else []) := by
    refine flatMap_congr_forall2 h _ ?_
    intro e1 e2 hpair
    rcases hpair with rfl | ⟨⟨hsym, -⟩, hns, hp, hs, hr, hres⟩
    · rfl
    · have hfile : e2.is_file = e1.is_file := by unfold FsEntry.is_file; rw [hr]
      rw [hfile]
      by_cases hf : e1.is_file = true
      · rw [hf]
        simp only [if_true]
        rw [scan_file_eq_nil_of_not_scannable reSearch e1 _ hns,
            scan_file_eq_nil_of_not_scannable reSearch e2 _ (by rw [hp]; exact hns)]
      · rw [Bool.not_eq_true] at hf
        rw [hf]
        rfl
  simp only [h1, h2, h3, h4]

/-- C5 amended witness: the theorem applied to two concrete one-entry
directories differing only in the content behind a non-scannable escaping
symlink. -/
theorem C5_escaped_content_not_scanned_nonscannable_witness :
    scanSkillFindings reSearchNone ⟨"demo", "/skills/demo", [e5w1]⟩ =
    scanSkillFindings reSearchNone ⟨"demo", "/skills/demo", [e5w2]⟩ :=
  C5_escaped_content_not_scanned_nonscannable reSearchNone "demo" "/skills/demo"
    (List.Forall₂.cons
      (Or.inr ⟨⟨rfl, "/outside/t", rfl, by decide⟩, by decide, rfl, rfl, rfl, rfl⟩)
      List.Forall₂.nil)

/-- C5 counterexample: the claim as stated is false.  Two one-entry
directories that differ only in the bytes behind an escaping symlink (link
name `link.md`, a scannable extension) produce different finding lists: the
symlink passes `is_file()` and its target content is text-scanned, so a
zero-width space behind the link yields an extra `invisible_unicode` finding.
`reSearchNone` agrees with `re.search` on every pattern/line pair evaluated
(no corpus regex matches the empty line or the zero-width-space line). -/
theorem C5_counterexample :
    List.Forall₂ (sameUpToEscapedContent "/skills/demo") [e5a] [e5b] ∧
    scanSkillFindings reSearchNone ⟨"demo", "/skills/demo", [e5a]⟩ ≠
      scanSkillFindings reSearchNone ⟨"demo", "/skills/demo", [e5b]⟩ := by
  constructor
  · exact List.Forall₂.cons
      (Or.inr ⟨⟨rfl, "/outside/target.md", rfl, by decide⟩, rfl, rfl, rfl, rfl⟩)
      List.Forall₂.nil
  · decide

/-- C8: `scan_file` on a file whose text cannot be read (UnicodeDecodeError or
OSError, modelled as `text = none`) returns the empty finding list; being a
total Lean function, it cannot fail the overall scan. -/
theorem C8_scan_file_unreadable_eq_nil (reSearch : String → String → Bool)
    (e : FsEntry) (rel : String) (h : e.text = none) :
    scan_file reSearch e rel = [] := by
  unfold scan_file
  split
  · rfl
  · rw [h]

/-- C8 witness: the theorem applied to a concrete unreadable `SKILL.md`. -/
theorem C8_scan_file_unreadable_eq_nil_witness :
    scan_file reSearchNone
      ⟨["SKILL.md"], false, true, some "/skills/demo/SKILL.md", none, none, 10, true, false⟩
      "SKILL.md" = [] :=
  C8_scan_file_unreadable_eq_nil reSearchNone _ "SKILL.md" rfl

/-- Auxiliary: every finding `_check_structure` emits while visiting an entry
carries that entry's relative path in its `file` field. -/
theorem entryStructFindings_file {root : String} {e : FsEntry} {fd : Finding}
    (h : fd ∈ entryStructFindings root e) : fd.file = e.rel := by
  unfold entryStructFindings at h
  split at h
  · simp at h
  · split at h
    · split at h
      · split at h
        · simp at h
          rw [h]
        · simp at h
      · simp at h
        rw [h]
    · split at h
      · simp at h
      · simp only [List.mem_append] at h
        rcases h with (h | h) | h
        · split at h
          · rw [List.mem_singleton.mp h]
          · simp at h
        · split at h
          · rw [List.mem_singleton.mp h]
          · simp at h
        · split at h
          · rw [List.mem_singleton.mp h]
          · simp at h

/-- Auxiliary: filtering a `flatMap` of per-entry findings down to one entry's
relative path keeps exactly that entry's findings, when relative paths are
unique in the listing. -/
theorem filter_flatMap_unique {es : List FsEntry} {e : FsEntry}
    (f : FsEntry → List Finding)
    (hf : ∀ x fd, fd ∈ f x → fd.file = x.rel)
    (hmem : e ∈ es)
    (hnd : (es.map (fun x => x.rel)).Nodup) :
    (es.flatMap f).filter (fun fd => fd.file == e.rel) = f e := by
  induction es with
  | nil => simp at hmem
  | cons x rest ih =>
      rw [List.map_cons, List.nodup_cons] at hnd
      obtain ⟨hx, hnd'⟩ := hnd
      rcases List.mem_cons.mp hmem with rfl | hmem'
      · rw [List.flatMap_cons, List.filter_append]
        have hfx : (f e).filter (fun fd => fd.file == e.rel) = f e := by
          refine List.filter_eq_self.mpr ?_
          intro fd hfd
          simp [hf e fd hfd]
        have hrest : (rest.flatMap f).filter (fun fd => fd.file == e.rel) = [] := by
          refine List.filter_eq_nil_iff.mpr ?_
          intro fd hfd
          rw [List.mem_flatMap] at hfd
          obtain ⟨y, hy, hfdy⟩ := hfd
          have hfile : fd.file = y.rel := hf y fd hfdy
          have hne : y.rel ≠ e.rel := fun hEq => hx (hEq ▸ List.mem_map_of_mem _ hy)
          simp [hfile, hne]
        rw [hfx, hrest, List.append_nil]
      · rw [List.flatMap_cons, List.filter_append]
        have hxe : x.rel ≠ e.rel := fun hEq => hx (hEq ▸ List.mem_map_of_mem _ hmem')
        have hxnil : (f x).filter (fun fd => fd.file == e.rel) = [] := by
          refine List.filter_eq_nil_iff.mpr ?_
          intro fd hfd
          simp [hf x fd hfd, hxe]
        rw [hxnil, List.nil_append]
        exact ih hmem' hnd'

/-- Auxiliary: the directory-level findings of `check_structure` (file
`"(directory)"`) vanish under a filter for a different path, so the filter
reduces to the per-entry findings. -/
theorem check_structure_filter_rel (nm root : String) (es : List FsEntry)
    (rel : String) (hdir : rel ≠ "(directory)") :
    (check_structure ⟨nm, root, es⟩).filter (fun fd => fd.file == rel) =
    (es.flatMap (entryStructFindings root)).filter (fun fd => fd.file == rel) := by
  have hne : (("(directory)" : String) == rel) = false :=
    beq_false_of_ne (fun h => hdir h.symm)
  unfold check_structure
  rw [List.filter_append, List.filter_append]
  have h1 : (if structFileCount es > MAX_FILE_COUNT then
      [(⟨"too_many_files", "medium", "structural", "(directory)", 0,
        toString (structFileCount es) ++ " files",
        "skill has " ++ toString (structFileCount es) ++ " files (limit: " ++
          toString MAX_FILE_COUNT ++ ")"⟩ : Finding)]
     else []).filter (fun fd => fd.file == rel) = [] := by
    split <;> simp [hne]
  have h2 : (if structTotalSize es > MAX_TOTAL_SIZE_KB * 1024 then
      [(⟨"oversized_skill", "high", "structural", "(directory)", 0,
        toString (structTotalSize es / 1024) ++ "KB total",
        "skill is " ++ toString (structTotalSize es / 1024) ++ "KB total (limit: " ++
          toString MAX_TOTAL_SIZE_KB ++ "KB)"⟩ : Finding)]
     else []).filter (fun fd => fd.file == rel) = [] := by
    split <;> simp [hne]
  rw [h1, h2, List.append_nil, List.append_nil]

/-- C6 amended: the structural pass of `scan_skill` emits, for a symlink with
a unique relative path, exactly one finding for that path: a
critical/traversal `symlink_escape` finding when the resolved target does not
fall under the skill root (independent of the target's content, which
`_check_structure` never reads), and a medium/traversal `broken_symlink`
finding when resolution raises.  (`scan_skill` as a whole may add further
content-based findings for the same path when the symlink resolves to a
scannable file — see the counterexample.) -/
theorem C6_structural_symlink_findings (nm root : String) (es : List FsEntry)
    (e : FsEntry) (hmem : e ∈ es) (hsym : e.isSymlink = true)
    (hnd : (es.map (fun x => x.rel)).Nodup)
    (hdir : e.rel ≠ "(directory)") :
    (∀ r, e.resolved = some r → pyStartswith r root = false →
      (check_structure ⟨nm, root, es⟩).filter (fun fd => fd.file == e.rel) =
        [⟨"symlink_escape", "critical", "traversal", e.rel, 0, "symlink -> " ++ r,
          "symlink points outside the skill directory"⟩]) ∧
    (e.resolved = none →
      (check_structure ⟨nm, root, es⟩).filter (fun fd => fd.file == e.rel) =
        [⟨"broken_symlink", "medium", "traversal", e.rel, 0, "broken symlink",
          "broken or circular symlink"⟩]) := by
  have hbase : (check_structure ⟨nm, root, es⟩).filter (fun fd => fd.file == e.rel) =
      entryStructFindings root e := by
    rw [check_structure_filter_rel nm root es e.rel hdir]
    exact filter_flatMap_unique (entryStructFindings root)
      (fun x fd h => entryStructFindings_file h) hmem hnd
  constructor
  · intro r hres hpre
    rw [hbase]
    unfold entryStructFindings
    rw [hsym, hres]
    simp [hpre]
  · intro hres
    rw [hbase]
    unfold entryStructFindings
    rw [hsym, hres]
    simp

/-- C6 amended witness: the theorem applied to a concrete one-entry directory
containing an escaping symlink. -/
theorem C6_structural_symlink_findings_witness :
    (check_structure ⟨"demo", "/skills/demo", [e6w]⟩).filter
      (fun fd => fd.file == e6w.rel) =
    [⟨"symlink_escape", "critical", "traversal", e6w.rel, 0, "symlink -> /outside/x",
      "symlink points outside the skill directory"⟩] :=
  (C6_structural_symlink_findings "demo" "/skills/demo" [e6w] e6w
    (by decide) (by decide) (by decide) (by decide)).1 "/outside/x" rfl (by decide)

/-- C6 counterexample: the claim's "exactly one critical/traversal finding for
that symlink, regardless of the target's content" is false for `scan_skill`:
an escaping symlink named `link.md` resolving to a file whose content is the
line `/etc/passwd` receives TWO critical/traversal findings — the structural
`symlink_escape` finding plus a `system_passwd_access` finding produced by
text-scanning the symlink's target content (`is_file()` is true for symlinks
to regular files).  `reSearchPasswdOnly` agrees with
`re.search(…, re.IGNORECASE)` on every (pattern, line) pair evaluated: of all
corpus regexes, exactly `/etc/passwd|/etc/shadow` matches `/etc/passwd`. -/
theorem C6_counterexample :
    escapesRoot "/skills/demo" e6 ∧
    ((scanSkillFindings reSearchPasswdOnly ⟨"demo", "/skills/demo", [e6]⟩).filter
      (fun fd => fd.file == e6.rel && fd.severity == "critical" &&
        fd.category == "traversal")).length = 2 := by
  constructor
  · exact ⟨rfl, "/outside/creds.md", rfl, by decide⟩
  · decide

/-- Sanity check: the embedded SHA-256 matches the standard test vector for
the empty message. -/
theorem sha256hex_empty :
    sha256hex [] = "e3b0c44298fc1c149afbf4c8996fb92427ae41e4649b934ca495991b7852b855" := by
  decide

/-- Sanity check: the embedded SHA-256 matches the standard test vector for
`"abc"`. -/
theorem sha256hex_abc :
    sha256hex [97, 98, 99] =
      "ba7816bf8f01cfea414140de5dae2223b00361a396177a9cb410ff61f20015ad" := by
  decide

/-- Auxiliary: the byte-accumulating fold of `content_hash` hashes exactly the
concatenation of the readable bytes of the entries passing `is_file()`. -/
theorem content_hash_fold_eq_flatten (es : List FsEntry) :
    ∀ acc : List Nat,
      es.foldl (fun acc e =>
        if e.is_file then
          match e.bytes with
          | some bs => acc ++ bs
          | none => acc
        else acc) acc =
      acc ++ ((es.filter (fun e => e.is_file)).filterMap (fun e => e.bytes)).flatten := by
  induction es with
  | nil => intro acc; simp
  | cons e rest ih =>
      intro acc
      rw [List.foldl_cons, List.filter_cons]
      by_cases hf : e.is_file = true
      · rw [if_pos hf]
        simp only [hf, if_true]
        cases hb : e.bytes with
        | some bs =>
            rw [ih, List.filterMap_cons]
            simp [hb, List.append_assoc]
        | none =>
            rw [ih, List.filterMap_cons]
            simp [hb]
      · rw [Bool.not_eq_true] at hf
        simp only [hf, Bool.false_eq_true, if_false]
        exact ih acc

/-- C9 amended: `content_hash` equals `"sha256:"` followed by the first 16 hex
digits of the SHA-256 digest of the concatenated byte contents, in sorted path
order, of every entry passing `is_file()` — regular files AND symlinks
resolving to regular files (whose target bytes are hashed) — with unreadable
files skipped silently; and it is deterministic: it depends only on the entry
listing. -/
theorem C9_content_hash_spec :
    (∀ d : SkillDir, content_hash d =
      "sha256:" ++ pyTakeChars 16 (sha256hex
        ((((sortEntries d.entries).filter (fun e => e.is_file)).filterMap
          (fun e => e.bytes)).flatten))) ∧
    (∀ d1 d2 : SkillDir, d1.entries = d2.entries → content_hash d1 = content_hash d2) := by
  constructor
  · intro d
    unfold content_hash
    rw [content_hash_fold_eq_flatten]
    rw [List.nil_append]
  · intro d1 d2 h
    unfold content_hash
    rw [h]

/-- C9 witness: the determinism conjunct applied to two directories with the
same entry listing but different names and roots. -/
theorem C9_content_hash_spec_witness :
    content_hash ⟨"demo", "/skills/demo", [hashFileA]⟩ =
    content_hash ⟨"other", "/elsewhere", [hashFileA]⟩ :=
  C9_content_hash_spec.2 ⟨"demo", "/skills/demo", [hashFileA]⟩
    ⟨"other", "/elsewhere", [hashFileA]⟩ rfl

/-- C9 counterexample: the claim's "regular files ... with symlinks ...
skipped" is false.  On a directory holding the regular file `a.md` (bytes
`x`) and a symlink `b.md` to an outside regular file (bytes `y`),
`content_hash` hashes `xy` — `is_file()` is true for symlinks to regular
files, so the target bytes are included — while the claim's formula hashes
only `x`; the two hashes differ. -/
theorem C9_counterexample :
    content_hash ⟨"demo", "/skills/demo", [hashFileA, hashLinkB]⟩ ≠
    content_hash_claim ⟨"demo", "/skills/demo", [hashFileA, hashLinkB]⟩ := by
  decide

/-- C3: the classifier merge is monotone.  For every static `ScanResult` and
every list of classifier-derived findings, the merged verdict's priority in
the order safe(0) < caution(1) < dangerous(2) is at least the static one's
(the clamp in `llm_audit_skill` restores the static verdict whenever the
recomputed one would be lower); and when the static verdict is `"dangerous"`
the static result is returned unchanged. -/
theorem C3_llm_merge_monotone (static_result : ScanResult) (llm_findings : List Finding) :
    verdictPriority static_result.verdict ≤
      verdictPriority (llm_merge static_result llm_findings).verdict ∧
    (static_result.verdict = "dangerous" →
      llm_merge static_result llm_findings = static_result) := by
  constructor
  · unfold llm_merge
    split
    · exact le_refl _
    · split
      · exact le_refl _
      · dsimp only
        split
        · exact le_refl _
        · next h => exact Nat.le_of_not_lt h
  · intro h
    unfold llm_merge
    rw [if_pos h]

/-- C3 witness: the theorem's dangerous-case conjunct applied at a concrete
already-dangerous static result and a non-empty classifier finding list. -/
theorem C3_llm_merge_monotone_witness :
    llm_merge staticDangerous [lowF] = staticDangerous :=
  (C3_llm_merge_monotone staticDangerous [lowF]).2 rfl

/-- C7 amended: every finding `_parse_llm_response` produces is wrapped with
`pattern_id = "llm_audit"`, `category = "llm-detected"`,
`file = "(LLM analysis)"` (NOT `"(external analysis)"` as the claim says),
`line = 0`, and a severity drawn from the four known levels (unrecognized
severities replaced by `"medium"`). -/
theorem C7_llm_findings_wrapped (data : JsonVal) (f : Finding)
    (hf : f ∈ parse_llm_findings data) :
    f.pattern_id = "llm_audit" ∧ f.category = "llm-detected" ∧
    f.file = "(LLM analysis)" ∧ f.line = 0 ∧
    f.severity ∈ (["critical", "high", "medium", "low"] : List String) := by
  unfold parse_llm_findings at hf
  split at hf
  · rw [List.mem_flatMap] at hf
    obtain ⟨item, hitem, hmem⟩ := hf
    split at hmem
    · dsimp only at hmem
      split at hmem
      · rw [List.mem_singleton] at hmem
        subst hmem
        refine ⟨rfl, rfl, rfl, rfl, ?_⟩
        dsimp only
        split
        · simp
        · next h => exact not_not.mp h
      · simp at hmem
    · simp at hmem
  · simp at hf

/-- C7 amended witness: the theorem applied to the finding parsed from a
concrete classifier response with an unrecognized severity. -/
theorem C7_llm_findings_wrapped_witness :
    (⟨"llm_audit", "medium", "llm-detected", "(LLM analysis)", 0, "possible exfiltration",
      "LLM audit: possible exfiltration"⟩ : Finding).pattern_id = "llm_audit" ∧
    (⟨"llm_audit", "medium", "llm-detected", "(LLM analysis)", 0, "possible exfiltration",
      "LLM audit: possible exfiltration"⟩ : Finding).category = "llm-detected" ∧
    (⟨"llm_audit", "medium", "llm-detected", "(LLM analysis)", 0, "possible exfiltration",
      "LLM audit: possible exfiltration"⟩ : Finding).file = "(LLM analysis)" ∧
    (⟨"llm_audit", "medium", "llm-detected", "(LLM analysis)", 0, "possible exfiltration",
      "LLM audit: possible exfiltration"⟩ : Finding).line = 0 ∧
    (⟨"llm_audit", "medium", "llm-detected", "(LLM analysis)", 0, "possible exfiltration",
      "LLM audit: possible exfiltration"⟩ : Finding).severity ∈
      (["critical", "high", "medium", "low"] : List String) :=
  C7_llm_findings_wrapped llmResp0
    ⟨"llm_audit", "medium", "llm-detected", "(LLM analysis)", 0, "possible exfiltration",
     "LLM audit: possible exfiltration"⟩ (by decide)

/-- C7 counterexample: the claim's `file = "(external analysis)"` is false —
the source wraps classifier findings with `file = "(LLM analysis)"`.  A
concrete response with one finding (and an unrecognized severity, duly
replaced by `"medium"`) parses to a finding whose file field is
`"(LLM analysis)"`. -/
theorem C7_counterexample :
    (parse_llm_findings llmResp0).map (fun f => f.file) = ["(LLM analysis)"] ∧
    (parse_llm_findings llmResp0).map (fun f => f.severity) = ["medium"] ∧
    ("(LLM analysis)" : String) ≠ "(external analysis)" := by
  refine ⟨by decide, by decide, by decide⟩
